import Mathlib

/-!
Shallow embedding of the en-300-468-reader crate (src/lib.rs and src/sdt.rs).

Modelling conventions:
* byte buffers are `List Nat` whose elements are intended to be < 256;
* a Rust `Result<A, TextError>` becomes `Except TextError A`;
* a computation that can panic (out-of-bounds slice indexing, `unimplemented`,
  `unreachable`, a failed assertion, `split_at` past the end) is wrapped in an
  outer `Option`: `none` models the abort, `some v` models normal return of `v`.
-/

set_option maxHeartbeats 1000000

/-- Embedding of `TextEncoding` from src/lib.rs: text encodings defined by ETSI EN 300 468. -/
inductive TextEncoding where
  | Reserved1 (b : Nat)
  | Reserved2 (a b : Nat)
  | Iso88591
  | Iso88592
  | Iso88593
  | Iso88594
  | Iso88595
  | Iso88596
  | Iso88597
  | Iso88598
  | Iso88599
  | Iso885910
  | Iso885911
  | Iso885913
  | Iso885914
  | Iso885915
  | Iso10646
  | KSX1001_2004
  | GB2312_1980
  | Big5
  | UTF8
deriving DecidableEq, Repr

/-- Embedding of `TextError` from src/lib.rs: problems encountered while decoding a `Text`. -/
inductive TextError where
  | NotEnoughData (expected available : Nat)
  | DecodeFailure
  | UnsupportedEncoding (e : TextEncoding)
deriving DecidableEq, Repr

/-- Embedding of `Text` from src/lib.rs: a wrapper around bytes representing text with embedded
encoding information. -/
structure Text where
  data : List Nat
deriving DecidableEq, Repr

/-- Embedding of `Text::new` from src/lib.rs. -/
def Text.new (data : List Nat) : Except TextError Text :=
  if data.isEmpty then
    Except.error (TextError.NotEnoughData 1 0)
  else
    Except.ok (Text.mk data)

/-- Embedding of `Text::encoding` from src/lib.rs.  The source indexes `self.data[0]` (and, in the
`0x10` arm, `self.data[1]` and `self.data[2]`) with panicking slice indexing, calls
`unimplemented!` for `0x1F` and `unreachable!` for `0x00`; all of these aborts are
modelled as `none`. -/
def Text.encoding (t : Text) : Option TextEncoding :=
  match t.data.get? 0 with
  | none => none
  | some id =>
    if 0x20 ≤ id ∧ id ≤ 0xff then some TextEncoding.Iso88591
    else if id = 0x01 then some TextEncoding.Iso88595
    else if id = 0x02 then some TextEncoding.Iso88596
    else if id = 0x03 then some TextEncoding.Iso88597
    else if id = 0x04 then some TextEncoding.Iso88598
    else if id = 0x05 then some TextEncoding.Iso88599
    else if id = 0x06 then some TextEncoding.Iso885910
    else if id = 0x07 then some TextEncoding.Iso885911
    else if id = 0x08 then some (TextEncoding.Reserved1 id)
    else if id = 0x09 then some TextEncoding.Iso885913
    else if id = 0x0a then some TextEncoding.Iso885914
    else if id = 0x0b then some TextEncoding.Iso885915
    else if 0x0c ≤ id ∧ id ≤ 0x0f then some (TextEncoding.Reserved1 id)
    else if id = 0x10 then
      match t.data.get? 1, t.data.get? 2 with
      | some a, some b =>
        some (
          if a = 0x00 ∧ b = 0x00 then TextEncoding.Reserved2 a b
          else if a = 0x00 ∧ b = 0x01 then TextEncoding.Iso88591
          else if a = 0x00 ∧ b = 0x02 then TextEncoding.Iso88592
          else if a = 0x00 ∧ b = 0x03 then TextEncoding.Iso88593
          else if a = 0x00 ∧ b = 0x04 then TextEncoding.Iso88594
          else if a = 0x00 ∧ b = 0x05 then TextEncoding.Iso88595
          else if a = 0x00 ∧ b = 0x06 then TextEncoding.Iso88596
          else if a = 0x00 ∧ b = 0x07 then TextEncoding.Iso88597
          else if a = 0x00 ∧ b = 0x08 then TextEncoding.Iso88598
          else if a = 0x00 ∧ b = 0x09 then TextEncoding.Iso88599
          else if a = 0x00 ∧ b = 0x0a then TextEncoding.Iso885910
          else if a = 0x00 ∧ b = 0x0b then TextEncoding.Iso885911
          else if a = 0x00 ∧ b = 0x0c then TextEncoding.Reserved2 a b
          else if a = 0x00 ∧ b = 0x0d then TextEncoding.Iso885913
          else if a = 0x00 ∧ b = 0x0e then TextEncoding.Iso885914
          else if a = 0x00 ∧ b = 0x0f then TextEncoding.Iso885915
          else TextEncoding.Reserved2 a b)
      | _, _ => none
    else if id = 0x11 then some TextEncoding.Iso10646
    else if id = 0x12 then some TextEncoding.KSX1001_2004
    else if id = 0x13 then some TextEncoding.GB2312_1980
    else if id = 0x14 then some TextEncoding.Big5
    else if id = 0x15 then some TextEncoding.UTF8
    else if 0x16 ≤ id ∧ id ≤ 0x1e then some (TextEncoding.Reserved1 id)
    else none

/-- Embedding of `Text::enc_prefix_len` from src/lib.rs.  `none` models the `unreachable!` arm
(first byte `0x00`, impossible for byte input but kept faithful) and the panic when
`self.data` is empty. -/
def Text.enc_prefix_len (t : Text) : Option (Except TextError Nat) :=
  match t.data.get? 0 with
  | none => none
  | some id =>
    if (0x01 ≤ id ∧ id ≤ 0x0f) ∨ (0x11 ≤ id ∧ id ≤ 0x1e) then some (Except.ok 1)
    else if id = 0x1f then some (Except.ok 2)
    else if id = 0x10 then
      if t.data.length < 3 then
        some (Except.error (TextError.NotEnoughData 3 t.data.length))
      else
        some (Except.ok 3)
    else if 0x20 ≤ id ∧ id ≤ 0xff then some (Except.ok 0)
    else none

/-- Embedding of `Text::buffer` from src/lib.rs: drops the encoding prefix. -/
def Text.buffer (t : Text) : Option (Except TextError (List Nat)) :=
  match t.enc_prefix_len with
  | none => none
  | some (Except.error e) => some (Except.error e)
  | some (Except.ok n) => some (Except.ok (t.data.drop n))

/-- Modelled from the spec: the repository delegates actual character decoding to the
external `encoding_rs` crate (not part of this repository).  A `Decoder` models one
charset of that backend: `strict` models `decode_without_bom_handling_and_without_replacement`
(returning `none` on a malformed byte sequence), `withReplacement` models
`decode_without_bom_handling`, which is total and substitutes U+FFFD for malformed
sequences.  Decoded text is modelled as the list of Unicode code points. -/
structure Decoder where
  strict : List Nat → Option (List Nat)
  withReplacement : List Nat → List Nat

/-- Modelled from the spec: the collection of `encoding_rs` charset decoders that
`Text::to_string` / `Text::to_string_with_replacement` dispatch to. -/
structure Backend where
  iso8859_2 : Decoder
  iso8859_3 : Decoder
  iso8859_4 : Decoder
  iso8859_5 : Decoder
  iso8859_6 : Decoder
  iso8859_7 : Decoder
  iso8859_8 : Decoder
  iso8859_10 : Decoder
  iso8859_13 : Decoder
  iso8859_14 : Decoder
  iso8859_15 : Decoder
  big5 : Decoder
  utf8 : Decoder

/-- Modelled from the spec: `encoding_rs::mem::decode_latin1` maps each input byte `b`
directly to the Unicode code point `b`; it is total (every byte is valid Latin-1). -/
def decode_latin1 (bytes : List Nat) : List Nat := bytes

/-- Rust `Option::ok_or`, as used on the backend decode results in src/lib.rs. -/
def okOr (r : Option (List Nat)) (e : TextError) : Except TextError (List Nat) :=
  match r with
  | some s => Except.ok s
  | none => Except.error e

/-- Embedding of `Text::to_string` from src/lib.rs, parameterized by the external decoding backend.
First resolves the encoding (which may panic, hence the outer `Option`), then decodes
the post-prefix buffer strictly, mapping a backend decode failure to
`TextError.DecodeFailure` via `ok_or`. -/
def Text.to_string (B : Backend) (t : Text) : Option (Except TextError (List Nat)) :=
  match t.encoding with
  | none => none
  | some enc =>
    match enc with
    | TextEncoding.Iso88591 =>
      (t.buffer).map (fun r => r.map decode_latin1)
    | TextEncoding.Iso88592 =>
      (t.buffer).map (fun r => r.bind (fun bs => okOr (B.iso8859_2.strict bs) TextError.DecodeFailure))
    | TextEncoding.Iso88593 =>
      (t.buffer).map (fun r => r.bind (fun bs => okOr (B.iso8859_3.strict bs) TextError.DecodeFailure))
    | TextEncoding.Iso88594 =>
      (t.buffer).map (fun r => r.bind (fun bs => okOr (B.iso8859_4.strict bs) TextError.DecodeFailure))
    | TextEncoding.Iso88595 =>
      (t.buffer).map (fun r => r.bind (fun bs => okOr (B.iso8859_5.strict bs) TextError.DecodeFailure))
    | TextEncoding.Iso88596 =>
      (t.buffer).map (fun r => r.bind (fun bs => okOr (B.iso8859_6.strict bs) TextError.DecodeFailure))
    | TextEncoding.Iso88597 =>
      (t.buffer).map (fun r => r.bind (fun bs => okOr (B.iso8859_7.strict bs) TextError.DecodeFailure))
    | TextEncoding.Iso88598 =>
      (t.buffer).map (fun r => r.bind (fun bs => okOr (B.iso8859_8.strict bs) TextError.DecodeFailure))
    | TextEncoding.Iso88599 => some (Except.error (TextError.UnsupportedEncoding enc))
    | TextEncoding.Iso885910 =>
      (t.buffer).map (fun r => r.bind (fun bs => okOr (B.iso8859_10.strict bs) TextError.DecodeFailure))
    | TextEncoding.Iso885911 => some (Except.error (TextError.UnsupportedEncoding enc))
    | TextEncoding.Iso885913 =>
      (t.buffer).map (fun r => r.bind (fun bs => okOr (B.iso8859_13.strict bs) TextError.DecodeFailure))
    | TextEncoding.Iso885914 =>
      (t.buffer).map (fun r => r.bind (fun bs => okOr (B.iso8859_14.strict bs) TextError.DecodeFailure))
    | TextEncoding.Iso885915 =>
      (t.buffer).map (fun r => r.bind (fun bs => okOr (B.iso8859_15.strict bs) TextError.DecodeFailure))
    | TextEncoding.Reserved1 _ => some (Except.error (TextError.UnsupportedEncoding enc))
    | TextEncoding.Reserved2 _ _ => some (Except.error (TextError.UnsupportedEncoding enc))
    | TextEncoding.Iso10646 => some (Except.error (TextError.UnsupportedEncoding enc))
    | TextEncoding.KSX1001_2004 => some (Except.error (TextError.UnsupportedEncoding enc))
    | TextEncoding.GB2312_1980 => some (Except.error (TextError.UnsupportedEncoding enc))
    | TextEncoding.Big5 =>
      (t.buffer).map (fun r => r.bind (fun bs => okOr (B.big5.strict bs) TextError.DecodeFailure))
    | TextEncoding.UTF8 =>
      (t.buffer).map (fun r => r.bind (fun bs => okOr (B.utf8.strict bs) TextError.DecodeFailure))

/-- Embedding of `Text::to_string_with_replacement` from src/lib.rs, parameterized by the external
decoding backend: like `to_string` but each supported non-Latin-1 charset uses the
total replacing decode. -/
def Text.to_string_with_replacement (B : Backend) (t : Text) :
    Option (Except TextError (List Nat)) :=
  match t.encoding with
  | none => none
  | some enc =>
    match enc with
    | TextEncoding.Iso88591 =>
      (t.buffer).map (fun r => r.map decode_latin1)
    | TextEncoding.Iso88592 =>
      (t.buffer).map (fun r => r.map (fun bs => B.iso8859_2.withReplacement bs))
    | TextEncoding.Iso88593 =>
      (t.buffer).map (fun r => r.map (fun bs => B.iso8859_3.withReplacement bs))
    | TextEncoding.Iso88594 =>
      (t.buffer).map (fun r => r.map (fun bs => B.iso8859_4.withReplacement bs))
    | TextEncoding.Iso88595 =>
      (t.buffer).map (fun r => r.map (fun bs => B.iso8859_5.withReplacement bs))
    | TextEncoding.Iso88596 =>
      (t.buffer).map (fun r => r.map (fun bs => B.iso8859_6.withReplacement bs))
    | TextEncoding.Iso88597 =>
      (t.buffer).map (fun r => r.map (fun bs => B.iso8859_7.withReplacement bs))
    | TextEncoding.Iso88598 =>
      (t.buffer).map (fun r => r.map (fun bs => B.iso8859_8.withReplacement bs))
    | TextEncoding.Iso88599 => some (Except.error (TextError.UnsupportedEncoding enc))
    | TextEncoding.Iso885910 =>
      (t.buffer).map (fun r => r.map (fun bs => B.iso8859_10.withReplacement bs))
    | TextEncoding.Iso885911 => some (Except.error (TextError.UnsupportedEncoding enc))
    | TextEncoding.Iso885913 =>
      (t.buffer).map (fun r => r.map (fun bs => B.iso8859_13.withReplacement bs))
    | TextEncoding.Iso885914 =>
      (t.buffer).map (fun r => r.map (fun bs => B.iso8859_14.withReplacement bs))
    | TextEncoding.Iso885915 =>
      (t.buffer).map (fun r => r.map (fun bs => B.iso8859_15.withReplacement bs))
    | TextEncoding.Reserved1 _ => some (Except.error (TextError.UnsupportedEncoding enc))
    | TextEncoding.Reserved2 _ _ => some (Except.error (TextError.UnsupportedEncoding enc))
    | TextEncoding.Iso10646 => some (Except.error (TextError.UnsupportedEncoding enc))
    | TextEncoding.KSX1001_2004 => some (Except.error (TextError.UnsupportedEncoding enc))
    | TextEncoding.GB2312_1980 => some (Except.error (TextError.UnsupportedEncoding enc))
    | TextEncoding.Big5 =>
      (t.buffer).map (fun r => r.map (fun bs => B.big5.withReplacement bs))
    | TextEncoding.UTF8 =>
      (t.buffer).map (fun r => r.map (fun bs => B.utf8.withReplacement bs))

/-- Modelled from the spec: the strict UTF-8 decoder of the external backend
(`encoding_rs::UTF_8.decode_without_bom_handling_and_without_replacement`).  Decodes
a byte list into Unicode scalar values, returning `none` exactly when the bytes are
not valid UTF-8 (wrong lead byte, wrong continuation range, overlong form, surrogate
range, or value above U+10FFFF, per the standard UTF-8 validity table). -/
def utf8DecodeStrict : List Nat → Option (List Nat)
  | [] => some []
  | b :: rest =>
    if b ≤ 0x7f then
      (utf8DecodeStrict rest).map (fun t => b :: t)
    else if 0xc2 ≤ b ∧ b ≤ 0xdf then
      match rest with
      | c1 :: r =>
        if 0x80 ≤ c1 ∧ c1 ≤ 0xbf then
          (utf8DecodeStrict r).map (fun t => ((b - 0xc0) * 0x40 + (c1 - 0x80)) :: t)
        else none
      | [] => none
    else if 0xe0 ≤ b ∧ b ≤ 0xef then
      match rest with
      | c1 :: c2 :: r =>
        if ((if b = 0xe0 then 0xa0 else 0x80) ≤ c1 ∧
            c1 ≤ (if b = 0xed then 0x9f else 0xbf)) ∧
           (0x80 ≤ c2 ∧ c2 ≤ 0xbf) then
          (utf8DecodeStrict r).map
            (fun t => ((b - 0xe0) * 0x1000 + (c1 - 0x80) * 0x40 + (c2 - 0x80)) :: t)
        else none
      | _ => none
    else if 0xf0 ≤ b ∧ b ≤ 0xf4 then
      match rest with
      | c1 :: c2 :: c3 :: r =>
        if ((if b = 0xf0 then 0x90 else 0x80) ≤ c1 ∧
            c1 ≤ (if b = 0xf4 then 0x8f else 0xbf)) ∧
           (0x80 ≤ c2 ∧ c2 ≤ 0xbf) ∧ (0x80 ≤ c3 ∧ c3 ≤ 0xbf) then
          (utf8DecodeStrict r).map
            (fun t =>
              ((b - 0xf0) * 0x40000 + (c1 - 0x80) * 0x1000 + (c2 - 0x80) * 0x40 +
                (c3 - 0x80)) :: t)
        else none
      | _ => none
    else none

/-- Modelled from the spec: the replacing UTF-8 decoder of the external backend
(`encoding_rs::UTF_8.decode_without_bom_handling`): total, substituting U+FFFD for a
rejected byte and resuming.  (The exact resynchronisation policy of the real backend
is finer-grained; the theorems below rely only on totality and on single-byte
failures such as a lone `0xFF`, where this model is exact.) -/
def utf8DecodeReplace : List Nat → List Nat
  | [] => []
  | b :: rest =>
    if b ≤ 0x7f then b :: utf8DecodeReplace rest
    else if 0xc2 ≤ b ∧ b ≤ 0xdf then
      match rest with
      | c1 :: r =>
        if 0x80 ≤ c1 ∧ c1 ≤ 0xbf then
          ((b - 0xc0) * 0x40 + (c1 - 0x80)) :: utf8DecodeReplace r
        else 0xfffd :: utf8DecodeReplace (c1 :: r)
      | [] => [0xfffd]
    else if 0xe0 ≤ b ∧ b ≤ 0xef then
      match rest with
      | c1 :: c2 :: r =>
        if ((if b = 0xe0 then 0xa0 else 0x80) ≤ c1 ∧
            c1 ≤ (if b = 0xed then 0x9f else 0xbf)) ∧
           (0x80 ≤ c2 ∧ c2 ≤ 0xbf) then
          ((b - 0xe0) * 0x1000 + (c1 - 0x80) * 0x40 + (c2 - 0x80)) :: utf8DecodeReplace r
        else 0xfffd :: utf8DecodeReplace (c1 :: c2 :: r)
      | _ => [0xfffd]
    else if 0xf0 ≤ b ∧ b ≤ 0xf4 then
      match rest with
      | c1 :: c2 :: c3 :: r =>
        if ((if b = 0xf0 then 0x90 else 0x80) ≤ c1 ∧
            c1 ≤ (if b = 0xf4 then 0x8f else 0xbf)) ∧
           (0x80 ≤ c2 ∧ c2 ≤ 0xbf) ∧ (0x80 ≤ c3 ∧ c3 ≤ 0xbf) then
          ((b - 0xf0) * 0x40000 + (c1 - 0x80) * 0x1000 + (c2 - 0x80) * 0x40 +
            (c3 - 0x80)) :: utf8DecodeReplace r
        else 0xfffd :: utf8DecodeReplace (c1 :: c2 :: c3 :: r)
      | _ => [0xfffd]
    else 0xfffd :: utf8DecodeReplace rest

/-- Modelled from the spec: a concrete stand-in for one external single-byte (or Big5)
charset decoder, used only to instantiate theorems at concrete inputs.  The theorems
below exercise it only on the empty payload, where every real charset decoder returns
the empty string in both modes, exactly as this model does; elsewhere it decodes each
byte as itself (matching the real tables on the ASCII range). -/
def modelSingleByte : Decoder :=
  { strict := fun bs => some bs, withReplacement := fun bs => bs }

/-- Modelled from the spec: a concrete instance of the external decoding backend, with
a full UTF-8 implementation and `modelSingleByte` stand-ins for the charsets whose
table contents no theorem below depends on. -/
def modelBackend : Backend :=
  { iso8859_2 := modelSingleByte
    iso8859_3 := modelSingleByte
    iso8859_4 := modelSingleByte
    iso8859_5 := modelSingleByte
    iso8859_6 := modelSingleByte
    iso8859_7 := modelSingleByte
    iso8859_8 := modelSingleByte
    iso8859_10 := modelSingleByte
    iso8859_13 := modelSingleByte
    iso8859_14 := modelSingleByte
    iso8859_15 := modelSingleByte
    big5 := modelSingleByte
    utf8 := { strict := utf8DecodeStrict, withReplacement := utf8DecodeReplace } }

/-- Embedding of `RunningStatus` from src/sdt.rs. -/
inductive RunningStatus where
  | Undefined
  | NotRunning
  | StartsInAFewSeconds
  | Pausing
  | Running
  | ServiceOffAir
  | Reserved (id : Nat)
deriving DecidableEq, Repr

/-- Embedding of `RunningStatus::from_id` from src/sdt.rs.  The source panics for ids above 7;
that abort is modelled as `none`. -/
def RunningStatus.from_id (id : Nat) : Option RunningStatus :=
  match id with
  | 0 => some RunningStatus.Undefined
  | 1 => some RunningStatus.NotRunning
  | 2 => some RunningStatus.StartsInAFewSeconds
  | 3 => some RunningStatus.Pausing
  | 4 => some RunningStatus.Running
  | 5 => some RunningStatus.ServiceOffAir
  | 6 => some (RunningStatus.Reserved 6)
  | 7 => some (RunningStatus.Reserved 7)
  | _ => none

/-- Embedding of `Service` from src/sdt.rs: a borrowed view of one service record. -/
structure Service where
  data : List Nat
deriving DecidableEq, Repr

/-- Embedding of `Service::running_status` from src/sdt.rs: reads `self.data[3] >> 5` (panicking
if fewer than 4 bytes are present, modelled as `none`) and maps it via
`RunningStatus::from_id`. -/
def Service.running_status (s : Service) : Option RunningStatus :=
  match s.data.get? 3 with
  | none => none
  | some b => RunningStatus.from_id (b >>> 5)

/-- Embedding of `ServiceIterator` from src/sdt.rs. -/
structure ServiceIterator where
  remaining_data : List Nat
deriving DecidableEq, Repr

/-- Embedding of `ServiceIterator::new` from src/sdt.rs. -/
def ServiceIterator.new (data : List Nat) : ServiceIterator :=
  ServiceIterator.mk data

/-- Embedding of `<ServiceIterator as Iterator>::next` from src/sdt.rs.  The source reads
`remaining_data[3]` and `remaining_data[4]` with panicking indexing and splits with
`split_at(size)`, which panics when `size` exceeds the remaining length; both aborts
are modelled as the outer `none`.  `some none` models the iterator returning `None`
(end of iteration); `some (some (sv, it))` models `Some(service)` together with the
updated iterator state. -/
def ServiceIterator.next (it : ServiceIterator) :
    Option (Option (Service × ServiceIterator)) :=
  if it.remaining_data.isEmpty then some none
  else
    match it.remaining_data.get? 3, it.remaining_data.get? 4 with
    | some b3, some b4 =>
      let size := 5 + ((Nat.land b3 0b1111) <<< 8 ||| b4)
      if size ≤ it.remaining_data.length then
        some (some
          (Service.mk (it.remaining_data.take size),
           ServiceIterator.mk (it.remaining_data.drop size)))
      else none
    | _, _ => none

/-- A successful `ServiceIterator::next` step strictly shrinks the remaining buffer
(the record consumed is at least 5 bytes). -/
theorem ServiceIterator.next_shrinks (buf : List Nat) (sv : Service)
    (it2 : ServiceIterator)
    (h : ServiceIterator.next (ServiceIterator.mk buf) = some (some (sv, it2))) :
    it2.remaining_data.length < buf.length := by
  unfold ServiceIterator.next at h
  split at h
  · simp at h
  · split at h
    · dsimp only at h
      split at h
      · rename_i hle
        simp only [Option.some.injEq, Prod.mk.injEq] at h
        obtain ⟨_, hit⟩ := h
        subst hit
        simp only [List.length_drop]
        omega
      · simp at h
    · simp at h

/-- Driving `ServiceIterator` to exhaustion, collecting the yielded `Service` records
in order; `none` if any step of the source iterator panics. -/
def serviceList (buf : List Nat) : Option (List Service) :=
  match h : ServiceIterator.next (ServiceIterator.mk buf) with
  | none => none
  | some none => some []
  | some (some (sv, it2)) =>
    (serviceList it2.remaining_data).map (fun l => sv :: l)
termination_by buf.length
decreasing_by exact ServiceIterator.next_shrinks buf sv it2 h

/-- Embedding of `ServiceDescriptor` from src/sdt.rs: a borrowed view of one service-descriptor
payload (tag 0x48). -/
structure ServiceDescriptor where
  data : List Nat
deriving DecidableEq, Repr

/-- Embedding of `ServiceDescriptor::service_provider_name` from src/sdt.rs: reads the 1-byte
length at offset 1 (panicking indexing, modelled as the outer `none`), returns the
sub-slice `[2, 2+len)` wrapped by `Text::new`, or `NotEnoughData` when the slice
would exceed the payload. -/
def ServiceDescriptor.service_provider_name (d : ServiceDescriptor) :
    Option (Except TextError Text) :=
  match d.data.get? 1 with
  | none => none
  | some len =>
    if 2 + len > d.data.length then
      some (Except.error (TextError.NotEnoughData (2 + len) d.data.length))
    else
      some (Text.new ((d.data.drop 2).take len))

/-- Embedding of `ServiceDescriptor::service_name` from src/sdt.rs: reads the provider-name length
at offset 1, then the service-name length at offset `2 + provider_len` (both with
panicking indexing, modelled as the outer `none`), returning the following sub-slice
wrapped by `Text::new`, or `NotEnoughData` when it would exceed the payload. -/
def ServiceDescriptor.service_name (d : ServiceDescriptor) :
    Option (Except TextError Text) :=
  match d.data.get? 1 with
  | none => none
  | some plen =>
    match d.data.get? (2 + plen) with
    | none => none
    | some nlen =>
      if 1 + (2 + plen) + nlen > d.data.length then
        some (Except.error (TextError.NotEnoughData (1 + (2 + plen) + nlen) d.data.length))
      else
        some (Text.new ((d.data.drop (1 + (2 + plen))).take nlen))

/-- Embedding of `SdtSection` from src/sdt.rs. -/
structure SdtSection where
  data : List Nat
deriving DecidableEq, Repr

/-- Embedding of `SdtSection::new` from src/sdt.rs: `assert!(data.len() > 3)`; the failed
assertion is a fatal abort, modelled as `none`. -/
def SdtSection.new (data : List Nat) : Option SdtSection :=
  if data.length > 3 then some (SdtSection.mk data) else none

/-- Embedding of `SdtSection::original_network_id` from src/sdt.rs: big-endian 16-bit value of the
first two bytes (panicking indexing modelled as `none`). -/
def SdtSection.original_network_id (s : SdtSection) : Option Nat :=
  match s.data.get? 0, s.data.get? 1 with
  | some a, some b => some ((a <<< 8) ||| b)
  | _, _ => none

/-- Embedding of `SdtSection::services` from src/sdt.rs: a `ServiceIterator` over `data[3..]`. -/
def SdtSection.services (s : SdtSection) : ServiceIterator :=
  ServiceIterator.new (s.data.drop 3)

/-- The selector-byte-to-encoding table exactly as the claim C1 states it (spec-side
definition, for comparison with `Text.encoding`): `none` for selector bytes the claim
does not cover (0x00, 0x10, 0x1F). -/
def claimEncoding (b : Nat) : Option TextEncoding :=
  if 0x20 ≤ b ∧ b ≤ 0xff then some TextEncoding.Iso88591
  else if b = 0x01 then some TextEncoding.Iso88595
  else if b = 0x02 then some TextEncoding.Iso88596
  else if b = 0x03 then some TextEncoding.Iso88597
  else if b = 0x04 then some TextEncoding.Iso88598
  else if b = 0x05 then some TextEncoding.Iso88599
  else if b = 0x06 then some TextEncoding.Iso885910
  else if b = 0x07 then some TextEncoding.Iso885911
  else if b = 0x08 ∨ (0x0c ≤ b ∧ b ≤ 0x0f) ∨ (0x16 ≤ b ∧ b ≤ 0x1e) then
    some (TextEncoding.Reserved1 b)
  else if b = 0x09 then some TextEncoding.Iso885913
  else if b = 0x0a then some TextEncoding.Iso885914
  else if b = 0x0b then some TextEncoding.Iso885915
  else if b = 0x11 then some TextEncoding.Iso10646
  else if b = 0x12 then some TextEncoding.KSX1001_2004
  else if b = 0x13 then some TextEncoding.GB2312_1980
  else if b = 0x14 then some TextEncoding.Big5
  else if b = 0x15 then some TextEncoding.UTF8
  else none

/-- The running-status mapping exactly as claim C6 states it (spec-side definition,
for comparison with `RunningStatus.from_id`). -/
def claimRunningMap (v : Nat) : RunningStatus :=
  if v = 0 then RunningStatus.Undefined
  else if v = 1 then RunningStatus.NotRunning
  else if v = 2 then RunningStatus.StartsInAFewSeconds
  else if v = 3 then RunningStatus.Pausing
  else if v = 4 then RunningStatus.Running
  else if v = 5 then RunningStatus.ServiceOffAir
  else RunningStatus.Reserved v

/-- The table `claimEncoding` covers only byte values: above 0xFF it is undefined. -/
theorem claimEncoding_none_of_gt (b : Nat) (hgt : 0xff < b) : claimEncoding b = none := by
  unfold claimEncoding
  repeat rw [if_neg (by omega)]

/-- C1: encoding resolution is a pure function of the leading selector byte: for a
first byte in [0x20,0xFF] the resolved encoding is ISO 8859-1; 0x01..0x07 map to
ISO 8859-5..8859-11 in order; 0x08, 0x0C..0x0F and 0x16..0x1E map to the single-byte
Reserved variant carrying the byte unchanged; 0x09/0x0A/0x0B map to ISO 8859-13/14/15;
0x11..0x15 map to ISO 10646, KSX1001-2004, GB2312-1980, Big5 and UTF-8.  Stated via
`claimEncoding`, the claim's table: wherever that table is defined, `Text.encoding`
returns exactly its value. -/
theorem C1_encoding_resolution (t : Text) (b : Nat) (e : TextEncoding)
    (h0 : t.data.get? 0 = some b) (hc : claimEncoding b = some e) :
    t.encoding = some e := by
  obtain ⟨d⟩ := t
  have hd : ∃ tl, d = b :: tl := by
    cases d with
    | nil => simp at h0
    | cons x tl =>
      rw [List.get?_cons_zero] at h0
      injection h0 with h
      exact ⟨tl, by rw [h]⟩
  obtain ⟨tl, rfl⟩ := hd
  by_cases h20 : 0x20 ≤ b ∧ b ≤ 0xff
  · unfold claimEncoding at hc
    rw [if_pos h20] at hc
    unfold Text.encoding
    split
    · rename_i hnone
      simp at hnone
    · rename_i id hid
      rw [List.get?_cons_zero] at hid
      injection hid with hid
      subst hid
      rw [if_pos h20]
      exact hc
  · have hsplit : b < 0x20 ∨ 0xff < b := by omega
    rcases hsplit with hlt | hgt
    · by_cases h10 : b = 0x10
      · subst h10
        rw [(by decide : claimEncoding 0x10 = (none : Option TextEncoding))] at hc
        exact Option.noConfusion hc
      · rw [← hc]
        interval_cases b <;> first | rfl | (exact absurd rfl h10)
    · rw [claimEncoding_none_of_gt b hgt] at hc
      exact Option.noConfusion hc

/-- Witness for C1 at concrete inputs: selector 0x15 resolves to UTF-8 and selector
0xC3 resolves to ISO 8859-1. -/
theorem C1_encoding_resolution_witness :
    Text.encoding (Text.mk [0x15]) = some TextEncoding.UTF8 ∧
    Text.encoding (Text.mk [0xc3, 0xa9]) = some TextEncoding.Iso88591 :=
  ⟨C1_encoding_resolution (Text.mk [0x15]) 0x15 TextEncoding.UTF8 rfl (by decide),
   C1_encoding_resolution (Text.mk [0xc3, 0xa9]) 0xc3 TextEncoding.Iso88591 rfl (by decide)⟩

/-- C6: for every service record with at least 4 bytes (byte values below 256),
`running_status` reads the top 3 bits of byte 3 and maps them totally, never
panicking: the result is exactly `claimRunningMap` (0 to Undefined, 1 to NotRunning,
2 to StartsInAFewSeconds, 3 to Pausing, 4 to Running, 5 to ServiceOffAir, 6/7 to
Reserved) applied to the 3-bit value, and `RunningStatus.from_id` agrees with that
table on every 3-bit value. -/
theorem C6_running_status_total (s : Service) (b3 : Nat)
    (h3 : s.data.get? 3 = some b3) (hb : b3 < 256) :
    Service.running_status s = some (claimRunningMap (b3 >>> 5)) ∧
    (∀ v : Nat, v ≤ 7 → RunningStatus.from_id v = some (claimRunningMap v)) := by
  have hfrom : ∀ v : Nat, v ≤ 7 → RunningStatus.from_id v = some (claimRunningMap v) := by
    intro v hv
    interval_cases v <;> rfl
  refine ⟨?_, hfrom⟩
  have hlt : b3 >>> 5 ≤ 7 := by
    have hdiv : b3 >>> 5 = b3 / 2 ^ 5 := Nat.shiftRight_eq_div_pow b3 5
    rw [hdiv]
    omega
  unfold Service.running_status
  rw [h3]
  exact hfrom _ hlt

/-- Witness for C6: byte 3 equal to 0x80 has top bits 0b100 and decodes to Running. -/
theorem C6_running_status_total_witness :
    Service.running_status (Service.mk [0, 0, 0, 0x80]) =
      some (claimRunningMap (0x80 >>> 5)) ∧
    (∀ v : Nat, v ≤ 7 → RunningStatus.from_id v = some (claimRunningMap v)) :=
  C6_running_status_total (Service.mk [0, 0, 0, 0x80]) 0x80 rfl (by decide)

/-- C10: `Text::new` fails with `NotEnoughData (expected 1, available 0)` exactly on
the empty slice and otherwise succeeds, returning a `Text` wrapping the same bytes
unchanged (no byte is inspected or copied), so every constructed `Text` is non-empty. -/
theorem C10_text_new (data : List Nat) :
    (data = [] → Text.new data = Except.error (TextError.NotEnoughData 1 0)) ∧
    (data ≠ [] → Text.new data = Except.ok (Text.mk data)) := by
  constructor
  · intro h
    subst h
    rfl
  · intro h
    unfold Text.new
    rw [if_neg (by simpa using h)]

/-- Witness for C10 at the empty slice and a one-byte slice. -/
theorem C10_text_new_witness :
    Text.new [] = Except.error (TextError.NotEnoughData 1 0) ∧
    Text.new [0x41] = Except.ok (Text.mk [0x41]) :=
  ⟨(C10_text_new []).1 rfl, (C10_text_new [0x41]).2 (by decide)⟩

/-- C2 (documenting the divergence): for a text field whose first byte is 0x10 and
whose total length n is below 3, decoding does NOT return the recoverable
`NotEnoughData` error the claim describes: `Text::to_string` (and the replacement
variant) first call `Text::encoding`, which indexes `data[1]`/`data[2]` out of
bounds and aborts (modelled `none`) before `Text::enc_prefix_len` — which does
contain exactly the claimed `NotEnoughData (expected 3, available n)` path, shown in
the last two conjuncts — can ever run on this input. -/
theorem C2_short_0x10_aborts :
    Text.to_string modelBackend (Text.mk [0x10]) = none ∧
    Text.to_string_with_replacement modelBackend (Text.mk [0x10]) = none ∧
    Text.to_string modelBackend (Text.mk [0x10, 0x00]) = none ∧
    Text.to_string_with_replacement modelBackend (Text.mk [0x10, 0x00]) = none ∧
    Text.enc_prefix_len (Text.mk [0x10]) =
      some (Except.error (TextError.NotEnoughData 3 1)) ∧
    Text.enc_prefix_len (Text.mk [0x10, 0x00]) =
      some (Except.error (TextError.NotEnoughData 3 2)) :=
  ⟨rfl, rfl, rfl, rfl, rfl, rfl⟩

/-- The set of encodings for which src/lib.rs `Text::to_string` and
`Text::to_string_with_replacement` return `UnsupportedEncoding` (read off the match
arms): ISO 8859-9, ISO 8859-11, ISO 10646, KSX1001-2004, GB2312-1980 and the two
Reserved variants — but NOT Big5, which is dispatched to the backend decoder. -/
def unsupportedByCode (e : TextEncoding) : Bool :=
  match e with
  | TextEncoding.Iso88599 => true
  | TextEncoding.Iso885911 => true
  | TextEncoding.Iso10646 => true
  | TextEncoding.KSX1001_2004 => true
  | TextEncoding.GB2312_1980 => true
  | TextEncoding.Reserved1 _ => true
  | TextEncoding.Reserved2 _ _ => true
  | _ => false

/-- Counterexample to C4 as stated: the claim lists Big5 among the encodings that
fail with UnsupportedEncoding, but a field with selector byte 0x14 (resolved to Big5)
is dispatched to the backend Big5 decoder in both modes; with the empty payload both
modes return Ok (every charset decodes the empty byte sequence to the empty string),
not `UnsupportedEncoding Big5`. -/
theorem C4_counterexample_big5 :
    Text.encoding (Text.mk [0x14]) = some TextEncoding.Big5 ∧
    Text.to_string modelBackend (Text.mk [0x14]) = some (Except.ok []) ∧
    Text.to_string_with_replacement modelBackend (Text.mk [0x14]) = some (Except.ok []) :=
  ⟨rfl, rfl, rfl⟩

/-- C4 (amended): for every text field and every backend, both Strict-mode and
Replace-mode decoding fail with the recoverable `UnsupportedEncoding` error when the
resolved encoding is ISO 8859-9, ISO 8859-11, ISO 10646 (UCS-2), KSX1001-2004,
GB2312-1980, or either Reserved variant (Big5, unlike the claim says, is dispatched
to the backend decoder instead), and this error is distinct from the malformed-byte
`DecodeFailure` error. -/
theorem C4_unsupported_encodings (B : Backend) (t : Text) (e : TextEncoding)
    (he : t.encoding = some e) (hu : unsupportedByCode e = true) :
    Text.to_string B t = some (Except.error (TextError.UnsupportedEncoding e)) ∧
    Text.to_string_with_replacement B t =
      some (Except.error (TextError.UnsupportedEncoding e)) ∧
    (∀ e2, TextError.UnsupportedEncoding e2 ≠ TextError.DecodeFailure) := by
  refine ⟨?_, ?_, fun e2 h => TextError.noConfusion h⟩
  · unfold Text.to_string
    rw [he]
    cases e <;> first | rfl | exact Bool.noConfusion hu
  · unfold Text.to_string_with_replacement
    rw [he]
    cases e <;> first | rfl | exact Bool.noConfusion hu

/-- Witness for C4 at a concrete input: selector 0x11 resolves to ISO 10646 and both
decode modes report it unsupported. -/
theorem C4_unsupported_encodings_witness :
    Text.to_string modelBackend (Text.mk [0x11]) =
      some (Except.error (TextError.UnsupportedEncoding TextEncoding.Iso10646)) ∧
    Text.to_string_with_replacement modelBackend (Text.mk [0x11]) =
      some (Except.error (TextError.UnsupportedEncoding TextEncoding.Iso10646)) ∧
    (∀ e2, TextError.UnsupportedEncoding e2 ≠ TextError.DecodeFailure) :=
  C4_unsupported_encodings modelBackend (Text.mk [0x11]) TextEncoding.Iso10646 rfl rfl

/-- Counterexample to C5 as stated: on the 2-byte payload [0x01, 0x00] (provider-name
length 0), `service_provider_name` does not return the empty byte range at offset 2:
`Text::new` rejects the empty slice with `NotEnoughData (expected 1, available 0)`;
and `service_name` aborts (index out of bounds reading the name-length byte at offset
2) instead of failing recoverably — contradicting "never aborting on malformed
input". -/
theorem C5_counterexample :
    ServiceDescriptor.service_provider_name (ServiceDescriptor.mk [0x01, 0x00]) =
      some (Except.error (TextError.NotEnoughData 1 0)) ∧
    ServiceDescriptor.service_name (ServiceDescriptor.mk [0x01, 0x00]) = none :=
  ⟨rfl, rfl⟩

/-- C5 (amended): for a Service Descriptor payload whose 1-byte length L at offset 1
is readable, `service_provider_name` fails with `NotEnoughData (2+L)` when `2+L`
exceeds the payload size, fails with `NotEnoughData 1 0` when L = 0 (the empty slice
is rejected by `Text::new`), and otherwise returns the L bytes at offset 2;
`service_name` aborts (out-of-bounds index, not a recoverable error) when the
name-length byte at offset `2+L` is itself unreadable, and otherwise behaves the
same way with name length M at offset `3+L`. -/
theorem C5_name_accessors (d : ServiceDescriptor) (L : Nat)
    (hL : d.data.get? 1 = some L) :
    (2 + L > d.data.length →
      d.service_provider_name =
        some (Except.error (TextError.NotEnoughData (2 + L) d.data.length))) ∧
    (2 + L ≤ d.data.length → 0 < L →
      d.service_provider_name =
        some (Except.ok (Text.mk ((d.data.drop 2).take L)))) ∧
    (L = 0 → 2 + L ≤ d.data.length →
      d.service_provider_name = some (Except.error (TextError.NotEnoughData 1 0))) ∧
    (d.data.get? (2 + L) = none → d.service_name = none) ∧
    (∀ M, d.data.get? (2 + L) = some M →
      (1 + (2 + L) + M > d.data.length →
        d.service_name =
          some (Except.error (TextError.NotEnoughData (1 + (2 + L) + M) d.data.length))) ∧
      (1 + (2 + L) + M ≤ d.data.length → 0 < M →
        d.service_name =
          some (Except.ok (Text.mk ((d.data.drop (1 + (2 + L))).take M)))) ∧
      (M = 0 → 1 + (2 + L) + M ≤ d.data.length →
        d.service_name = some (Except.error (TextError.NotEnoughData 1 0)))) := by
  refine ⟨?_, ?_, ?_, ?_, ?_⟩
  · intro hgt
    unfold ServiceDescriptor.service_provider_name
    simp only [hL]
    rw [if_pos hgt]
  · intro hle hpos
    unfold ServiceDescriptor.service_provider_name
    simp only [hL]
    rw [if_neg (by omega)]
    unfold Text.new
    rw [if_neg ?_]
    intro hnil
    rw [List.isEmpty_iff] at hnil
    have hlen := congrArg List.length hnil
    simp only [List.length_take, List.length_drop, List.length_nil] at hlen
    omega
  · intro h0 hle
    subst h0
    unfold ServiceDescriptor.service_provider_name
    simp only [hL]
    rw [if_neg (by omega)]
    rfl
  · intro hnone
    unfold ServiceDescriptor.service_name
    simp only [hL, hnone]
  · intro M hM
    refine ⟨?_, ?_, ?_⟩
    · intro hgt
      unfold ServiceDescriptor.service_name
      simp only [hL, hM]
      rw [if_pos hgt]
    · intro hle hpos
      unfold ServiceDescriptor.service_name
      simp only [hL, hM]
      rw [if_neg (by omega)]
      unfold Text.new
      rw [if_neg ?_]
      intro hnil
      rw [List.isEmpty_iff] at hnil
      have hlen := congrArg List.length hnil
      have hM2 : 2 + L < d.data.length := (List.get?_eq_some.mp hM).1
      simp only [List.length_take, List.length_drop, List.length_nil] at hlen
      omega
    · intro h0 hle
      subst h0
      unfold ServiceDescriptor.service_name
      simp only [hL, hM]
      rw [if_neg (by omega)]
      rfl

/-- Witness for C5 at the well-formed payload
[type, len 3, A, B, C, len 2, X, Y]: the provider name is the 3 bytes "ABC" and the
service name the 2 bytes "XY". -/
theorem C5_name_accessors_witness :
    ServiceDescriptor.service_provider_name
        (ServiceDescriptor.mk [0x01, 0x03, 0x41, 0x42, 0x43, 0x02, 0x58, 0x59]) =
      some (Except.ok (Text.mk [0x41, 0x42, 0x43])) ∧
    ServiceDescriptor.service_name
        (ServiceDescriptor.mk [0x01, 0x03, 0x41, 0x42, 0x43, 0x02, 0x58, 0x59]) =
      some (Except.ok (Text.mk [0x58, 0x59])) :=
  ⟨(C5_name_accessors
      (ServiceDescriptor.mk [0x01, 0x03, 0x41, 0x42, 0x43, 0x02, 0x58, 0x59]) 3
      rfl).2.1 (by decide) (by decide),
   ((C5_name_accessors
      (ServiceDescriptor.mk [0x01, 0x03, 0x41, 0x42, 0x43, 0x02, 0x58, 0x59]) 3
      rfl).2.2.2.2 2 rfl).2.1 (by decide) (by decide)⟩

/-- Counterexample to C3 as stated: a step of the service iterator does not always
"yield a record or yield nothing": on a non-empty 4-byte remaining buffer it aborts
reading `remaining_data[4]` out of bounds, and on a 5-byte buffer declaring a 1-byte
descriptor loop (record size 6 > 5 remaining) `split_at` aborts — neither yields
nothing (`some none`) nor yields a record. -/
theorem C3_counterexample :
    ServiceIterator.next (ServiceIterator.mk [0x00, 0x00, 0x00, 0x00]) = none ∧
    ServiceIterator.next (ServiceIterator.mk [0x00, 0x00, 0x00, 0x00, 0x01]) = none :=
  ⟨rfl, rfl⟩

/-- C3 (amended): each step of the service iterator yields nothing exactly when the
remaining buffer is empty (forward direction in the first conjunct, converse forced
by the last three conjuncts, which pin every non-empty case to a record or an abort);
whenever it yields a record, that record lies entirely within the remaining buffer
(record plus tail exactly partition it, and its size is the 5-byte prefix plus the
declared 12-bit loop length); it aborts (a bounds-checked panic) precisely in the two
malformed cases — fewer than 5 bytes remaining, or declared size exceeding the
remaining bytes — and in the well-formed non-empty case (size within the remaining
bytes) it must yield the in-bounds record and keep exactly the rest; it never reads
past the buffer end. -/
theorem C3_next_in_bounds (buf : List Nat) :
    (buf = [] → ServiceIterator.next (ServiceIterator.mk buf) = some none) ∧
    (∀ sv it2, ServiceIterator.next (ServiceIterator.mk buf) = some (some (sv, it2)) →
      sv.data ++ it2.remaining_data = buf ∧
      ∃ b3 b4, buf.get? 3 = some b3 ∧ buf.get? 4 = some b4 ∧
        sv.data.length = 5 + ((Nat.land b3 0b1111) <<< 8 ||| b4)) ∧
    (buf ≠ [] → buf.length < 5 → ServiceIterator.next (ServiceIterator.mk buf) = none) ∧
    (∀ b3 b4, buf.get? 3 = some b3 → buf.get? 4 = some b4 →
      buf.length < 5 + ((Nat.land b3 0b1111) <<< 8 ||| b4) →
      ServiceIterator.next (ServiceIterator.mk buf) = none) ∧
    (∀ b3 b4, buf.get? 3 = some b3 → buf.get? 4 = some b4 →
      5 + ((Nat.land b3 0b1111) <<< 8 ||| b4) ≤ buf.length →
      ServiceIterator.next (ServiceIterator.mk buf) =
        some (some
          (Service.mk (buf.take (5 + ((Nat.land b3 0b1111) <<< 8 ||| b4))),
           ServiceIterator.mk (buf.drop (5 + ((Nat.land b3 0b1111) <<< 8 ||| b4)))))) := by
  refine ⟨?_, ?_, ?_, ?_, ?_⟩
  · intro h
    subst h
    rfl
  · intro sv it2 h
    unfold ServiceIterator.next at h
    split at h
    · simp at h
    · split at h
      · rename_i b3 b4 h3 h4
        dsimp only at h
        split at h
        · rename_i hle
          simp only [Option.some.injEq, Prod.mk.injEq] at h
          obtain ⟨hsv, hit⟩ := h
          subst hsv
          subst hit
          refine ⟨List.take_append_drop _ _, b3, b4, h3, h4, ?_⟩
          simp only [List.length_take]
          omega
        · simp at h
      · simp at h
  · intro hne hlen
    unfold ServiceIterator.next
    dsimp only
    rw [if_neg (by simpa using hne)]
    have h4 : buf.get? 4 = none := List.get?_eq_none.mpr (by omega)
    cases h3 : buf.get? 3 <;> rw [h4]
  · intro b3 b4 h3 h4 hlen
    unfold ServiceIterator.next
    have hne : ¬buf.isEmpty = true := by
      have := (List.get?_eq_some.mp h3).1
      cases buf
      · simp at this
      · simp
    rw [if_neg hne, h3, h4]
    dsimp only
    rw [if_neg (by omega)]
  · intro b3 b4 h3 h4 hle
    unfold ServiceIterator.next
    have hne : ¬buf.isEmpty = true := by
      have := (List.get?_eq_some.mp h3).1
      cases buf
      · simp at this
      · simp
    rw [if_neg hne, h3, h4]
    dsimp only
    rw [if_pos hle]

/-- Witness for C3 at concrete inputs: the empty buffer yields nothing; a 5-byte
record with zero loop length is yielded whole (with an empty tail); a 5-byte buffer
declaring a 1-byte descriptor loop (size 6) aborts. -/
theorem C3_next_in_bounds_witness :
    ServiceIterator.next (ServiceIterator.mk ([] : List Nat)) = some none ∧
    ServiceIterator.next (ServiceIterator.mk [0x00, 0x01, 0xff, 0x00, 0x00]) =
      some (some
        (Service.mk [0x00, 0x01, 0xff, 0x00, 0x00], ServiceIterator.mk [])) ∧
    ServiceIterator.next (ServiceIterator.mk [0x00, 0x01, 0xff, 0x00, 0x01]) = none :=
  ⟨(C3_next_in_bounds []).1 rfl,
   (C3_next_in_bounds [0x00, 0x01, 0xff, 0x00, 0x00]).2.2.2.2 0x00 0x00 rfl rfl
     (by decide),
   (C3_next_in_bounds [0x00, 0x01, 0xff, 0x00, 0x01]).2.2.2.1 0x00 0x01 rfl rfl
     (by decide)⟩

/-- A well-formed service record as claim C7 describes it: its size is exactly the
5-byte fixed prefix plus its declared 12-bit descriptor-loop length (read from the
low nibble of byte 3 and byte 4, as `ServiceIterator::next` reads it). -/
def wfServiceRecord (r : List Nat) : Prop :=
  ∃ b3 b4, r.get? 3 = some b3 ∧ r.get? 4 = some b4 ∧
    r.length = 5 + ((Nat.land b3 0b1111) <<< 8 ||| b4)

/-- On a buffer starting with a well-formed record, one iterator step yields exactly
that record and leaves exactly the rest. -/
theorem ServiceIterator.next_append (r rest : List Nat) (hwf : wfServiceRecord r) :
    ServiceIterator.next (ServiceIterator.mk (r ++ rest)) =
      some (some (Service.mk r, ServiceIterator.mk rest)) := by
  obtain ⟨b3, b4, h3, h4, hlen⟩ := hwf
  have h5 : 4 < r.length := (List.get?_eq_some.mp h4).1
  unfold ServiceIterator.next
  dsimp only
  rw [if_neg (by cases r with | nil => simp at h5 | cons x xs => simp)]
  rw [List.get?_append (by omega), List.get?_append (by omega), h3, h4]
  dsimp only
  rw [if_pos (by rw [List.length_append]; omega)]
  rw [← hlen, List.take_left, List.drop_left]

/-- Unfolding lemma: `serviceList` stops with the empty list when the iterator reports the end. -/
theorem serviceList_of_next_stop (buf : List Nat)
    (h : ServiceIterator.next (ServiceIterator.mk buf) = some none) :
    serviceList buf = some [] := by
  rw [serviceList]
  split
  · rename_i hn
    rw [h] at hn
    exact Option.noConfusion hn
  · rfl
  · rename_i sv it2 hn
    rw [h] at hn
    simp at hn

/-- Unfolding lemma: `serviceList` prepends the record yielded by one iterator step. -/
theorem serviceList_of_next_cons (buf : List Nat) (sv : Service) (it2 : ServiceIterator)
    (h : ServiceIterator.next (ServiceIterator.mk buf) = some (some (sv, it2))) :
    serviceList buf = (serviceList it2.remaining_data).map (fun l => sv :: l) := by
  rw [serviceList]
  split
  · rename_i hn
    rw [h] at hn
    exact Option.noConfusion hn
  · rename_i hn
    rw [h] at hn
    simp at hn
  · rename_i sv2 it3 hn
    rw [h] at hn
    simp only [Option.some.injEq, Prod.mk.injEq] at hn
    obtain ⟨h1, h2⟩ := hn
    rw [h1, h2]

/-- C7: the service iterator over the empty buffer yields no elements; over the
concatenation of well-formed service records (each of size exactly 5 plus its
declared 12-bit loop length) it yields exactly those records in order, and the
yielded records' byte ranges concatenate back to the original buffer. -/
theorem C7_iterator_round_trip (rs : List (List Nat))
    (hwf : ∀ r ∈ rs, wfServiceRecord r) :
    ServiceIterator.next (ServiceIterator.mk []) = some none ∧
    ∃ svs, serviceList rs.flatten = some svs ∧ svs.map Service.data = rs := by
  refine ⟨rfl, ?_⟩
  induction rs with
  | nil =>
    exact ⟨[], serviceList_of_next_stop [] rfl, rfl⟩
  | cons r rest ih =>
    obtain ⟨svs, hsvs, hdata⟩ := ih (fun q hq => hwf q (List.mem_cons_of_mem r hq))
    refine ⟨Service.mk r :: svs, ?_, ?_⟩
    · rw [List.flatten_cons,
        serviceList_of_next_cons _ (Service.mk r) (ServiceIterator.mk rest.flatten)
          (ServiceIterator.next_append r rest.flatten (hwf r (List.mem_cons_self r rest)))]
      dsimp only
      rw [hsvs]
      rfl
    · simp [hdata]

/-- Witness for C7 at two concrete well-formed records (sizes 5 and 6): the iterator
yields exactly both, and their bytes concatenate to the original buffer. -/
theorem C7_iterator_round_trip_witness :
    ServiceIterator.next (ServiceIterator.mk []) = some none ∧
    ∃ svs,
      serviceList
          (List.flatten [[0x44, 0x40, 0xff, 0x00, 0x00],
            [0x44, 0x41, 0xff, 0x00, 0x01, 0x99]]) = some svs ∧
      svs.map Service.data =
        [[0x44, 0x40, 0xff, 0x00, 0x00], [0x44, 0x41, 0xff, 0x00, 0x01, 0x99]] :=
  C7_iterator_round_trip
    [[0x44, 0x40, 0xff, 0x00, 0x00], [0x44, 0x41, 0xff, 0x00, 0x01, 0x99]]
    (by
      intro r hr
      simp only [List.mem_cons, List.not_mem_nil, or_false] at hr
      rcases hr with rfl | rfl
      · exact ⟨0x00, 0x00, rfl, rfl, by decide⟩
      · exact ⟨0x00, 0x01, rfl, rfl, by decide⟩)

/-- C8: `SdtSection::new` has the precondition `data.len() > 3`, fatal (an assertion
abort, modelled `none`) on violation; for every buffer satisfying it, construction
succeeds, `original_network_id` is the big-endian 16-bit value of the first two
bytes, and `services` iterates over exactly the bytes from offset 3 to the end. -/
theorem C8_sdt_section (data : List Nat) :
    (data.length ≤ 3 → SdtSection.new data = none) ∧
    (3 < data.length →
      ∃ s, SdtSection.new data = some s ∧
        (∃ b0 b1, data.get? 0 = some b0 ∧ data.get? 1 = some b1 ∧
          s.original_network_id = some ((b0 <<< 8) ||| b1)) ∧
        s.services = ServiceIterator.new (data.drop 3)) := by
  refine ⟨fun hle => ?_, fun hgt => ?_⟩
  · unfold SdtSection.new
    rw [if_neg (by omega)]
  · refine ⟨SdtSection.mk data, ?_, ?_, rfl⟩
    · unfold SdtSection.new
      rw [if_pos (by omega)]
    · have h0 : data.get? 0 = some (data.get ⟨0, by omega⟩) := List.get?_eq_get _
      have h1 : data.get? 1 = some (data.get ⟨1, by omega⟩) := List.get?_eq_get _
      refine ⟨_, _, h0, h1, ?_⟩
      unfold SdtSection.original_network_id
      simp only [h0, h1]

/-- Witness for C8: a 3-byte buffer aborts construction; on a 4-byte buffer with
first bytes 0x23 0x3A the original network id is 9018 and the service iterator
covers the single byte after offset 3. -/
theorem C8_sdt_section_witness :
    SdtSection.new [0x23, 0x3a, 0xff] = none ∧
    (∃ s, SdtSection.new [0x23, 0x3a, 0xff, 0x10] = some s ∧
      (∃ b0 b1, ([0x23, 0x3a, 0xff, 0x10] : List Nat).get? 0 = some b0 ∧
        ([0x23, 0x3a, 0xff, 0x10] : List Nat).get? 1 = some b1 ∧
        s.original_network_id = some ((b0 <<< 8) ||| b1)) ∧
      s.services = ServiceIterator.new (([0x23, 0x3a, 0xff, 0x10] : List Nat).drop 3)) :=
  ⟨(C8_sdt_section [0x23, 0x3a, 0xff]).1 (by decide),
   (C8_sdt_section [0x23, 0x3a, 0xff, 0x10]).2 (by decide)⟩

/-- The set of encodings that src/lib.rs actually dispatches to a backend decoder
(read off the match arms of `Text::to_string_with_replacement`): the Latin/ISO-8859
family implemented by the backend, Big5 and UTF-8. -/
def supportedByCode (e : TextEncoding) : Bool :=
  match e with
  | TextEncoding.Iso88591 => true
  | TextEncoding.Iso88592 => true
  | TextEncoding.Iso88593 => true
  | TextEncoding.Iso88594 => true
  | TextEncoding.Iso88595 => true
  | TextEncoding.Iso88596 => true
  | TextEncoding.Iso88597 => true
  | TextEncoding.Iso88598 => true
  | TextEncoding.Iso885910 => true
  | TextEncoding.Iso885913 => true
  | TextEncoding.Iso885914 => true
  | TextEncoding.Iso885915 => true
  | TextEncoding.Big5 => true
  | TextEncoding.UTF8 => true
  | _ => false

/-- Whenever `Text::encoding` returns (without panicking), `Text::enc_prefix_len`
succeeds: the prefix length is defined for every selector byte the resolver accepts,
and in the 0x10 case the resolver's very success implies at least 3 bytes. -/
theorem enc_prefix_ok_of_encoding (t : Text) (e : TextEncoding)
    (he : t.encoding = some e) : ∃ n, t.enc_prefix_len = some (Except.ok n) := by
  unfold Text.encoding at he
  unfold Text.enc_prefix_len
  cases h0 : t.data.get? 0 with
  | none =>
    rw [h0] at he
    exact absurd he (by simp)
  | some id =>
    rw [h0] at he
    simp only [h0]
    dsimp only at he
    by_cases hA : (0x01 ≤ id ∧ id ≤ 0x0f) ∨ (0x11 ≤ id ∧ id ≤ 0x1e)
    · exact ⟨1, by rw [if_pos hA]⟩
    · by_cases h20 : 0x20 ≤ id ∧ id ≤ 0xff
      · exact ⟨0, by rw [if_neg hA, if_neg (by omega), if_neg (by omega), if_pos h20]⟩
      · by_cases h10 : id = 0x10
        · subst h10
          repeat rw [if_neg (by omega)] at he
          rw [if_pos rfl] at he
          cases h1 : t.data.get? 1 with
          | none =>
            rw [h1] at he
            cases h2 : t.data.get? 2 <;> rw [h2] at he <;> exact absurd he (by simp)
          | some a =>
            cases h2 : t.data.get? 2 with
            | none =>
              rw [h1, h2] at he
              exact absurd he (by simp)
            | some c =>
              have hlen : 2 < t.data.length := (List.get?_eq_some.mp h2).1
              exact ⟨3, by
                rw [if_neg hA, if_neg (by omega), if_pos rfl, if_neg (by omega)]⟩
        · exfalso
          repeat rw [if_neg (by omega)] at he
          exact absurd he (by simp)

/-- C9: for every text field resolved to a charset the code dispatches to the
backend, Replace-mode decoding always succeeds (the replacing backend decoders are
total, substituting U+FFFD for invalid sequences); in particular, for the field
[0x15, 0xFF] — selector UTF-8 with a payload that is not valid UTF-8 — Strict mode
fails with `DecodeFailure` while Replace mode returns Ok (the replacement
character). -/
theorem C9_replace_mode_total :
    (∀ (B : Backend) (t : Text) (e : TextEncoding),
      t.encoding = some e → supportedByCode e = true →
      ∃ s, Text.to_string_with_replacement B t = some (Except.ok s)) ∧
    Text.to_string modelBackend (Text.mk [0x15, 0xff]) =
      some (Except.error TextError.DecodeFailure) ∧
    Text.to_string_with_replacement modelBackend (Text.mk [0x15, 0xff]) =
      some (Except.ok [0xfffd]) := by
  refine ⟨?_, rfl, rfl⟩
  intro B t e he hs
  obtain ⟨n, hpre⟩ := enc_prefix_ok_of_encoding t e he
  have hbuf : t.buffer = some (Except.ok (t.data.drop n)) := by
    unfold Text.buffer
    rw [hpre]
  unfold Text.to_string_with_replacement
  rw [he]
  cases e <;>
    first
      | exact Bool.noConfusion hs
      | (rw [hbuf]; exact ⟨_, rfl⟩)

/-- Witness for C9: the field [0x15, 0xFF] resolves to the supported UTF-8 charset
and Replace-mode decoding succeeds on it. -/
theorem C9_replace_mode_total_witness :
    Text.encoding (Text.mk [0x15, 0xff]) = some TextEncoding.UTF8 ∧
    supportedByCode TextEncoding.UTF8 = true ∧
    ∃ s,
      Text.to_string_with_replacement modelBackend (Text.mk [0x15, 0xff]) =
        some (Except.ok s) :=
  ⟨rfl, rfl,
   C9_replace_mode_total.1 modelBackend (Text.mk [0x15, 0xff]) TextEncoding.UTF8 rfl rfl⟩
